import Mathlib

/-!
Verification development for the Magnum shader configuration layer:
the Phong shader wrapper (src/Magnum/Shaders/Phong.h) and the
BufferImage2D pixel-buffer wrapper, as exercised by PhongGLTest.cpp and
BufferImageGLTest.cpp.

The repository snapshot contains the Phong header (flag enum values,
uniform slot member initializers, inline convenience setters, move
operation declarations) and the two GL test files; the out-of-line
member function bodies (Phong.cpp and the base-class move machinery)
are not part of the snapshot.  Where a body is missing, the definition
below is modelled from the spec, constrained by the exact diagnostic
transcripts and state checks the tests pin down; each such definition
says so in its doc comment.

Machine integers are modelled as Nat (all values involved are small and
no overflow arises); GLSL float uniform values carry no arithmetic in
this layer, so they are modelled exactly as rationals.
-/

namespace Magnum

/-- Four-component color (rgba), modelling Magnum::Color4.  Uniform values
are only stored and read back in this layer, so exact rationals suffice. -/
structure Color4 where
  r : Rat
  g : Rat
  b : Rat
  a : Rat
deriving DecidableEq

/-- Three-component vector, modelling Magnum::Vector3. -/
structure Vector3 where
  x : Rat
  y : Rat
  z : Rat
deriving DecidableEq

/-- 3x3 matrix, modelling Magnum::Matrix3x3 / Matrix3. -/
structure Matrix3 where
  m00 : Rat
  m01 : Rat
  m02 : Rat
  m10 : Rat
  m11 : Rat
  m12 : Rat
  m20 : Rat
  m21 : Rat
  m22 : Rat
deriving DecidableEq

def Matrix3.identity : Matrix3 := ⟨1, 0, 0, 0, 1, 0, 0, 0, 1⟩

/-- 4x4 matrix, modelling Magnum::Matrix4. -/
structure Matrix4 where
  m00 : Rat
  m01 : Rat
  m02 : Rat
  m03 : Rat
  m10 : Rat
  m11 : Rat
  m12 : Rat
  m13 : Rat
  m20 : Rat
  m21 : Rat
  m22 : Rat
  m23 : Rat
  m30 : Rat
  m31 : Rat
  m32 : Rat
  m33 : Rat
deriving DecidableEq

def Matrix4.identity : Matrix4 :=
  ⟨1, 0, 0, 0, 0, 1, 0, 0, 0, 0, 1, 0, 0, 0, 0, 1⟩

/-!
Flag bit values, from the Phong::Flag enum in Phong.h (lines 305-425).
Note the deliberate overlap in the source: InstancedObjectId is
declared as (1 << 8)|ObjectId and InstancedTextureOffset as
(1 << 10)|TextureTransformation, so those two flag values already
contain the bit of the flag they imply.
-/

def ambientTextureFlag : Nat := 1
def diffuseTextureFlag : Nat := 2
def specularTextureFlag : Nat := 4
def alphaMaskFlag : Nat := 8
def normalTextureFlag : Nat := 16
def vertexColorFlag : Nat := 32
def textureTransformationFlag : Nat := 64
def objectIdFlag : Nat := 128
def instancedObjectIdFlag : Nat := 256 ||| objectIdFlag
def instancedTransformationFlag : Nat := 512
def instancedTextureOffsetFlag : Nat := 1024 ||| textureTransformationFlag

/-- The Phong::Flag enumerators, in declaration order. -/
inductive Flag where
  | ambientTexture
  | diffuseTexture
  | specularTexture
  | normalTexture
  | alphaMask
  | vertexColor
  | textureTransformation
  | objectId
  | instancedObjectId
  | instancedTransformation
  | instancedTextureOffset
deriving DecidableEq

/-- Numeric value of each enumerator, from the Phong::Flag enum. -/
def Flag.value : Flag → Nat
  | .ambientTexture => ambientTextureFlag
  | .diffuseTexture => diffuseTextureFlag
  | .specularTexture => specularTextureFlag
  | .normalTexture => normalTextureFlag
  | .alphaMask => alphaMaskFlag
  | .vertexColor => vertexColorFlag
  | .textureTransformation => textureTransformationFlag
  | .objectId => objectIdFlag
  | .instancedObjectId => instancedObjectIdFlag
  | .instancedTransformation => instancedTransformationFlag
  | .instancedTextureOffset => instancedTextureOffsetFlag

/-- A Phong::Flags value (Containers::EnumSet over Flag, an UnsignedShort
bitmask).  Every flag set the API can produce is a union of enumerator
values. -/
def mkFlags (l : List Flag) : Nat :=
  l.foldl (fun acc fl => acc ||| fl.value) 0

/-- EnumSet containment test: flags >= flag in Corrade, i.e. all bits of
the flag value are present. -/
def flagsContain (f v : Nat) : Bool :=
  f &&& v == v

/-- The union of the four texture capability bits, used by bindTextures. -/
def textureFlagsMask : Nat :=
  ambientTextureFlag ||| diffuseTextureFlag ||| specularTextureFlag ||| normalTextureFlag

/-- Modelled from the spec: the flag normalization the spec describes for
construction (turning on InstancedObjectId also turns on ObjectId, and
InstancedTextureOffset also turns on TextureTransformation), written
from the spec's words so it can be compared with what the source's
constructor actually stores. -/
def normalizeFlags (f : Nat) : Nat :=
  let f1 := if flagsContain f instancedObjectIdFlag then f ||| objectIdFlag else f
  if flagsContain f1 instancedTextureOffsetFlag then f1 ||| textureTransformationFlag else f1

/-- The Phong shader object: the GL program handle plus the configuration
(flags, light count) and the uniform/binding state observable through
this layer.  Texture bindings are non-owning handles (GL texture names,
0 meaning nothing bound at that layer). -/
structure Phong where
  id : Nat
  flags : Nat
  lightCount : Nat
  transformationMatrix : Matrix4
  projectionMatrix : Matrix4
  normalMatrix : Matrix3
  textureMatrix : Matrix3
  ambientColor : Color4
  diffuseColor : Color4
  specularColor : Color4
  shininess : Rat
  alphaMask : Rat
  objectId : Nat
  lightPositions : List Vector3
  lightColors : List Color4
  boundAmbientTexture : Option Nat
  boundDiffuseTexture : Option Nat
  boundSpecularTexture : Option Nat
  boundNormalTexture : Option Nat
deriving DecidableEq

/-- Modelled from the spec: the Phong constructor body lives in Phong.cpp,
which is not in the snapshot.  It stores the flags and light count
unchanged (the construct test reads them back equal to the input),
obtains a fresh nonzero GL program id from the driver (modelled as 1),
and initializes the uniform state to the defaults documented in the
header: identity matrices, ambient color white when Flag::AmbientTexture
is set and transparent black otherwise, diffuse white, specular
0xffffff00, shininess 80, alpha mask 0.5, object id 0, light positions
zero vectors and light colors white, lightCount entries each. -/
def Phong.construct (flags : Nat) (lightCount : Nat) : Phong where
  id := 1
  flags := flags
  lightCount := lightCount
  transformationMatrix := Matrix4.identity
  projectionMatrix := Matrix4.identity
  normalMatrix := Matrix3.identity
  textureMatrix := Matrix3.identity
  ambientColor := if flagsContain flags ambientTextureFlag then ⟨1, 1, 1, 1⟩ else ⟨0, 0, 0, 0⟩
  diffuseColor := ⟨1, 1, 1, 1⟩
  specularColor := ⟨1, 1, 1, 0⟩
  shininess := 80
  alphaMask := 1/2
  objectId := 0
  lightPositions := List.replicate lightCount ⟨0, 0, 0⟩
  lightColors := List.replicate lightCount ⟨1, 1, 1, 1⟩
  boundAmbientTexture := none
  boundDiffuseTexture := none
  boundSpecularTexture := none
  boundNormalTexture := none

/-- The default constructor arguments from the header declaration:
explicit Phong(Flags flags = \x7b\x7d, UnsignedInt lightCount = 1). -/
def Phong.constructDefault : Phong := Phong.construct 0 1

/-!
Uniform slot layout, from the member initializers in Phong.h
(lines 736-751): fixed slots 0..9, then the light position array at
slot 10 and the light color array at slot 10 + lightCount (the header
comment says the latter is set in the constructor).
-/

def transformationMatrixUniform : Nat := 0
def projectionMatrixUniform : Nat := 1
def normalMatrixUniform : Nat := 2
def textureMatrixUniform : Nat := 3
def ambientColorUniform : Nat := 4
def diffuseColorUniform : Nat := 5
def specularColorUniform : Nat := 6
def shininessUniform : Nat := 7
def alphaMaskUniform : Nat := 8
def objectIdUniform : Nat := 9
def lightPositionsUniform : Nat := 10
def lightColorsUniform (lightCount : Nat) : Nat := 10 + lightCount

/-- The ten fixed scalar/matrix uniform slots. -/
def fixedUniformSlots : List Nat :=
  [transformationMatrixUniform, projectionMatrixUniform, normalMatrixUniform,
   textureMatrixUniform, ambientColorUniform, diffuseColorUniform,
   specularColorUniform, shininessUniform, alphaMaskUniform, objectIdUniform]

/-- Slots occupied by the light position array: lightCount consecutive
slots starting at lightPositionsUniform. -/
def lightPositionSlots (lightCount : Nat) : List Nat :=
  (List.range lightCount).map (fun i => lightPositionsUniform + i)

/-- Slots occupied by the light color array: lightCount consecutive slots
starting at lightColorsUniform lightCount. -/
def lightColorSlots (lightCount : Nat) : List Nat :=
  (List.range lightCount).map (fun i => lightColorsUniform lightCount + i)

/-!
Mutators.  Each returns the new shader state together with the list of
diagnostic lines written to the error stream by the call (one string
per line, newline included, exactly as the GL tests compare them).
The bodies live in Phong.cpp, which is not in the snapshot; each is
modelled from the spec's three setter policies (gated-by-flag failing
loudly, gated-by-light-count silently ignored, unconditional) and from
the diagnostic transcripts the tests pin down.
-/

/-- Modelled from the spec: setAmbientColor is unconditional (body in
Phong.cpp, not in the snapshot). -/
def Phong.setAmbientColor (s : Phong) (color : Color4) : Phong × List String :=
  ({ s with ambientColor := color }, [])

/-- Modelled from the spec: setDiffuseColor is a no-op when lightCount is
zero (so the diffuse term never contributes), otherwise stores the color
(body in Phong.cpp, not in the snapshot; the no-op behavior is also
documented on the member in Phong.h). -/
def Phong.setDiffuseColor (s : Phong) (color : Color4) : Phong × List String :=
  if s.lightCount == 0 then (s, [])
  else ({ s with diffuseColor := color }, [])

/-- Modelled from the spec: setSpecularColor is a no-op when lightCount is
zero, otherwise stores the color (body in Phong.cpp, not in the
snapshot; the no-op behavior is also documented on the member in
Phong.h). -/
def Phong.setSpecularColor (s : Phong) (color : Color4) : Phong × List String :=
  if s.lightCount == 0 then (s, [])
  else ({ s with specularColor := color }, [])

/-- Modelled from the spec: setShininess is a no-op when lightCount is
zero, otherwise stores the value (body in Phong.cpp, not in the
snapshot; the no-op behavior is also documented on the member in
Phong.h). -/
def Phong.setShininess (s : Phong) (shininess : Rat) : Phong × List String :=
  if s.lightCount == 0 then (s, [])
  else ({ s with shininess := shininess }, [])

/-- Modelled from the spec: setNormalMatrix is a no-op when lightCount is
zero, otherwise stores the matrix (body in Phong.cpp, not in the
snapshot; the no-op behavior is also documented on the member in
Phong.h). -/
def Phong.setNormalMatrix (s : Phong) (matrix : Matrix3) : Phong × List String :=
  if s.lightCount == 0 then (s, [])
  else ({ s with normalMatrix := matrix }, [])

/-- Modelled from the spec: setTransformationMatrix is unconditional (body
in Phong.cpp, not in the snapshot). -/
def Phong.setTransformationMatrix (s : Phong) (matrix : Matrix4) : Phong × List String :=
  ({ s with transformationMatrix := matrix }, [])

/-- Modelled from the spec: setProjectionMatrix is unconditional (body in
Phong.cpp, not in the snapshot). -/
def Phong.setProjectionMatrix (s : Phong) (matrix : Matrix4) : Phong × List String :=
  ({ s with projectionMatrix := matrix }, [])

/-- Modelled from the spec: setAlphaMask requires Flag::AlphaMask; with the
flag absent it emits the diagnostic line the setAlphaMaskNotEnabled test
compares against and leaves the state unchanged, otherwise it stores the
value (body in Phong.cpp, not in the snapshot). -/
def Phong.setAlphaMask (s : Phong) (mask : Rat) : Phong × List String :=
  if flagsContain s.flags alphaMaskFlag then ({ s with alphaMask := mask }, [])
  else (s, ["Shaders::Phong::setAlphaMask(): the shader was not created with alpha mask enabled\n"])

/-- Modelled from the spec: setObjectId requires Flag::ObjectId; with the
flag absent it emits a diagnostic in the spec's format and leaves the
state unchanged (body in Phong.cpp, not in the snapshot). -/
def Phong.setObjectId (s : Phong) (objectId : Nat) : Phong × List String :=
  if flagsContain s.flags objectIdFlag then ({ s with objectId := objectId }, [])
  else (s, ["Shaders::Phong::setObjectId(): the shader was not created with object ID enabled\n"])

/-- Modelled from the spec: setTextureMatrix requires
Flag::TextureTransformation; with the flag absent it emits a diagnostic
in the spec's format and leaves the state unchanged (body in Phong.cpp,
not in the snapshot). -/
def Phong.setTextureMatrix (s : Phong) (matrix : Matrix3) : Phong × List String :=
  if flagsContain s.flags textureTransformationFlag then ({ s with textureMatrix := matrix }, [])
  else (s, ["Shaders::Phong::setTextureMatrix(): the shader was not created with texture transformation enabled\n"])

/-- Modelled from the spec: bindAmbientTexture requires
Flag::AmbientTexture; with the flag absent it emits the diagnostic line
the bindTexturesNotEnabled test compares against and leaves the state
unchanged, otherwise it binds the texture (body in Phong.cpp, not in the
snapshot). -/
def Phong.bindAmbientTexture (s : Phong) (texture : Nat) : Phong × List String :=
  if flagsContain s.flags ambientTextureFlag then
    ({ s with boundAmbientTexture := some texture }, [])
  else
    (s, ["Shaders::Phong::bindAmbientTexture(): the shader was not created with ambient texture enabled\n"])

/-- Modelled from the spec: bindDiffuseTexture requires
Flag::DiffuseTexture; with the flag absent it emits the diagnostic line
the bindTexturesNotEnabled test compares against and leaves the state
unchanged; with the flag present it binds the texture unless lightCount
is zero, in which case it is a no-op per the member documentation in
Phong.h (body in Phong.cpp, not in the snapshot). -/
def Phong.bindDiffuseTexture (s : Phong) (texture : Nat) : Phong × List String :=
  if flagsContain s.flags diffuseTextureFlag then
    if s.lightCount == 0 then (s, [])
    else ({ s with boundDiffuseTexture := some texture }, [])
  else
    (s, ["Shaders::Phong::bindDiffuseTexture(): the shader was not created with diffuse texture enabled\n"])

/-- Modelled from the spec: bindSpecularTexture requires
Flag::SpecularTexture; with the flag absent it emits the diagnostic line
the bindTexturesNotEnabled test compares against and leaves the state
unchanged; with the flag present it binds the texture unless lightCount
is zero, in which case it is a no-op per the member documentation in
Phong.h (body in Phong.cpp, not in the snapshot). -/
def Phong.bindSpecularTexture (s : Phong) (texture : Nat) : Phong × List String :=
  if flagsContain s.flags specularTextureFlag then
    if s.lightCount == 0 then (s, [])
    else ({ s with boundSpecularTexture := some texture }, [])
  else
    (s, ["Shaders::Phong::bindSpecularTexture(): the shader was not created with specular texture enabled\n"])

/-- Modelled from the spec: bindNormalTexture requires Flag::NormalTexture;
with the flag absent it emits a diagnostic in the spec's format and
leaves the state unchanged; with the flag present it binds the texture
unless lightCount is zero, in which case it is a no-op per the member
documentation in Phong.h (body in Phong.cpp, not in the snapshot). -/
def Phong.bindNormalTexture (s : Phong) (texture : Nat) : Phong × List String :=
  if flagsContain s.flags normalTextureFlag then
    if s.lightCount == 0 then (s, [])
    else ({ s with boundNormalTexture := some texture }, [])
  else
    (s, ["Shaders::Phong::bindNormalTexture(): the shader was not created with normal texture enabled\n"])

/-- The combined diagnostic bindTextures emits when none of the four
texture flags is set, exactly as the bindTexturesNotEnabled test
compares it. -/
def bindTexturesNoneMsg : String :=
  "Shaders::Phong::bindTextures(): the shader was not created with any textures enabled\n"

/-- A per-capability bindTextures diagnostic line in the spec's
diagnostic format. -/
def bindTexturesCapabilityMsg (capability : String) : String :=
  "Shaders::Phong::bindTextures(): the shader was not created with " ++ capability ++ " enabled\n"

/-- Modelled from the spec: one argument slot of bindTextures.  A null
argument leaves the binding untouched; a non-null argument whose flag is
enabled yields the new binding; a non-null argument whose flag is
disabled keeps the old binding and reports its own diagnostic in the
spec's format (one line per violated precondition, accumulated in call
order, not short-circuited). -/
def bindTexturesSlot (enabled : Bool) (old : Option Nat) (arg : Option Nat)
    (capability : String) : Option Nat × List String :=
  match arg with
  | none => (old, [])
  | some texture =>
    if enabled then (some texture, [])
    else (old, [bindTexturesCapabilityMsg capability])

/-- Modelled from the spec: bindTextures batches the four texture bindings.
It expects at least one of the four texture flags: with none of them set
it emits exactly the single combined diagnostic line the
bindTexturesNotEnabled test compares against and changes nothing (the
test transcript shows no per-texture lines from this call).  Otherwise
each slot is handled independently per bindTexturesSlot, in fixed order
ambient, diffuse, specular, normal (body in Phong.cpp, not in the
snapshot). -/
def Phong.bindTextures (s : Phong) (ambient diffuse specular normal : Option Nat) :
    Phong × List String :=
  if s.flags &&& textureFlagsMask == 0 then
    (s, [bindTexturesNoneMsg])
  else
    let ra := bindTexturesSlot (flagsContain s.flags ambientTextureFlag)
      s.boundAmbientTexture ambient "ambient texture"
    let rd := bindTexturesSlot (flagsContain s.flags diffuseTextureFlag)
      s.boundDiffuseTexture diffuse "diffuse texture"
    let rs := bindTexturesSlot (flagsContain s.flags specularTextureFlag)
      s.boundSpecularTexture specular "specular texture"
    let rn := bindTexturesSlot (flagsContain s.flags normalTextureFlag)
      s.boundNormalTexture normal "normal texture"
    ({ s with
        boundAmbientTexture := ra.1
        boundDiffuseTexture := rd.1
        boundSpecularTexture := rs.1
        boundNormalTexture := rn.1 },
     ra.2 ++ rd.2 ++ rs.2 ++ rn.2)

/-- Modelled from the spec: setLightPositions expects the size of the
array to equal lightCount (the expectation is also documented on the
member in Phong.h); a mismatch is a precondition violation reported on
the error stream that applies nothing, a match stores all positions
(body in Phong.cpp, not in the snapshot). -/
def Phong.setLightPositions (s : Phong) (lights : List Vector3) : Phong × List String :=
  if lights.length == s.lightCount then ({ s with lightPositions := lights }, [])
  else (s, ["Shaders::Phong::setLightPositions(): expected as many light positions as the light count\n"])

/-- Modelled from the spec: the indexed setLightPosition expects
id < lightCount (also documented on the member in Phong.h);
out-of-range is a precondition violation reported on the error stream
that changes nothing, in-range updates just the one position (body in
Phong.cpp, not in the snapshot). -/
def Phong.setLightPosition (s : Phong) (id : Nat) (position : Vector3) : Phong × List String :=
  if id < s.lightCount then
    ({ s with lightPositions := s.lightPositions.set id position }, [])
  else
    (s, ["Shaders::Phong::setLightPosition(): light ID is out of bounds\n"])

/-- The single-light convenience overload, inline in Phong.h lines
689-691: it forwards to setLightPositions with the one-element array
containing the position. -/
def Phong.setLightPositionSingle (s : Phong) (position : Vector3) : Phong × List String :=
  s.setLightPositions [position]

/-- Modelled from the spec: setLightColors expects the size of the array
to equal lightCount (the expectation is also documented on the member in
Phong.h); a mismatch is a precondition violation reported on the error
stream that applies nothing, a match stores all colors (body in
Phong.cpp, not in the snapshot). -/
def Phong.setLightColors (s : Phong) (colors : List Color4) : Phong × List String :=
  if colors.length == s.lightCount then ({ s with lightColors := colors }, [])
  else (s, ["Shaders::Phong::setLightColors(): expected as many light colors as the light count\n"])

/-- Modelled from the spec: the indexed setLightColor expects
id < lightCount (also documented on the member in Phong.h);
out-of-range is a precondition violation reported on the error stream
that changes nothing, in-range updates just the one color (body in
Phong.cpp, not in the snapshot). -/
def Phong.setLightColor (s : Phong) (id : Nat) (color : Color4) : Phong × List String :=
  if id < s.lightCount then
    ({ s with lightColors := s.lightColors.set id color }, [])
  else
    (s, ["Shaders::Phong::setLightColor(): light ID is out of bounds\n"])

/-- The single-light convenience overload, inline in Phong.h lines
723-725: it forwards to setLightColors with the one-element array
containing the color. -/
def Phong.setLightColorSingle (s : Phong) (color : Color4) : Phong × List String :=
  s.setLightColors [color]

/-!
Move operations.  Phong declares its move constructor and move
assignment as defaulted (Phong.h lines 458-465); the member-wise
behavior is implemented by the GL object base classes, which are not in
the snapshot, so the operations are modelled from the spec and from the
state checks in the constructMove tests.
-/

/-- The moved-from / NoCreate Phong state: the GL id is cleared; the
remaining members keep their values (Phong(NoCreateT) in Phong.h
constructs an instance equivalent to a moved-from state). -/
def Phong.releaseId (s : Phong) : Phong := { s with id := 0 }

/-- Modelled from the spec: Phong move construction.  The target receives
the whole state including the GL id; the source is left with its id
cleared (the constructMove test checks the moved-to id and flags and
that the source id reads zero). -/
def Phong.moveConstruct (source : Phong) : Phong × Phong :=
  (source, source.releaseId)

/-- Modelled from the spec: Phong move assignment.  The defaulted
assignment exchanges the GL object handles and member values of target
and source, so the source is left holding the target's previous state
(the constructMove test assigns into a NoCreate target and then reads
the source id back as zero, that target's previous id). -/
def Phong.moveAssign (target source : Phong) : Phong × Phong :=
  (source, target)

/-- Pixel format of an uncompressed buffer image, the enumerators the
BufferImage test uses. -/
inductive PixelFormat where
  | red
  | rgba
deriving DecidableEq

/-- Pixel type of an uncompressed buffer image, the enumerators the
BufferImage test uses. -/
inductive PixelType where
  | unsignedByte
  | unsignedShort
deriving DecidableEq

/-- A BufferImage2D: pixel format and type, 2D size, and the GL buffer
object holding the pixel data (handle plus uploaded bytes, modelled as
a list of byte values). -/
structure BufferImage2D where
  bufferId : Nat
  format : PixelFormat
  pixelType : PixelType
  sizeX : Nat
  sizeY : Nat
  data : List Nat
deriving DecidableEq

/-- Modelled from the spec: the BufferImage2D data constructor (its body
is not in the snapshot).  It stores format, type and size, obtains a
fresh nonzero GL buffer name from the driver (passed in here, as the
tests read back whatever the driver assigned) and uploads the data. -/
def BufferImage2D.construct (bufferId : Nat) (format : PixelFormat)
    (pixelType : PixelType) (sizeX sizeY : Nat) (data : List Nat) : BufferImage2D :=
  { bufferId := bufferId, format := format, pixelType := pixelType,
    sizeX := sizeX, sizeY := sizeY, data := data }

/-- Modelled from the spec: BufferImage2D move construction.  The target
receives the whole state including the buffer handle; the source is left
with the buffer handle cleared to zero and the size zeroed out (the
constructMove test checks exactly these on the source). -/
def BufferImage2D.moveConstruct (source : BufferImage2D) : BufferImage2D × BufferImage2D :=
  (source, { source with bufferId := 0, sizeX := 0, sizeY := 0, data := [] })

/-- Modelled from the spec: BufferImage2D move assignment.  It exchanges
the buffer handles and member values of target and source, so the source
is left holding the target's previous state (the constructMove test
reads the source's buffer id back as the target's previous nonzero id
and the source's size as the target's previous size). -/
def BufferImage2D.moveAssign (target source : BufferImage2D) : BufferImage2D × BufferImage2D :=
  (source, target)

/-! Helper lemmas. -/

/-- EnumSet containment is monotone along bit containment of the flag
values: if every bit of w is a bit of v, a flag set containing v
contains w. -/
theorem flagsContain_mono {f v w : Nat} (hvw : v &&& w = w)
    (h : flagsContain f v = true) : flagsContain f w = true := by
  simp only [flagsContain, beq_iff_eq] at h ⊢
  have h2 := congrArg (· &&& w) h
  simp only at h2
  rw [Nat.and_assoc, hvw] at h2
  exact h2

/-- A flag set absorbs any flag it already contains. -/
theorem lor_eq_self_of_contained {f v : Nat} (h : flagsContain f v = true) :
    f ||| v = f := by
  simp only [flagsContain, beq_iff_eq] at h
  apply Nat.eq_of_testBit_eq
  intro i
  rw [Nat.testBit_or]
  cases hv : v.testBit i
  · simp
  · have h2 : (f &&& v).testBit i = v.testBit i := by rw [h]
    rw [Nat.testBit_and, hv] at h2
    simp only [Bool.and_true] at h2
    simp [h2]

/-- The spec's normalization is the identity on every flag bitmask: the
InstancedObjectId enumerator value already contains the ObjectId bit,
and the InstancedTextureOffset value already contains the
TextureTransformation bit, so there is never anything to add. -/
theorem normalizeFlags_eq_self (f : Nat) : normalizeFlags f = f := by
  have hObj : flagsContain f instancedObjectIdFlag = true → f ||| objectIdFlag = f :=
    fun h => lor_eq_self_of_contained (flagsContain_mono (by decide) h)
  have hTT : flagsContain f instancedTextureOffsetFlag = true →
      f ||| textureTransformationFlag = f :=
    fun h => lor_eq_self_of_contained (flagsContain_mono (by decide) h)
  unfold normalizeFlags
  cases h1 : flagsContain f instancedObjectIdFlag
  · simp only [Bool.false_eq_true, if_false]
    cases h2 : flagsContain f instancedTextureOffsetFlag
    · simp [h2]
    · simp [h2, hTT h2]
  · simp only [if_true, hObj h1]
    cases h2 : flagsContain f instancedTextureOffsetFlag
    · simp [hObj h1, h2]
    · simp [hObj h1, h2, hTT h2]

/-! Claim theorems. -/

/-- C1: for every flag set passed to the Phong constructor (any union of
Phong::Flag enumerator values) and every light count, construction
succeeds and flags() afterwards returns exactly the input flags
normalized by the implication rules: the result equals the
normalization of the input, the normalization adds nothing (because the
InstancedObjectId enumerator value already contains the ObjectId bit
and InstancedTextureOffset already contains TextureTransformation), so
if InstancedObjectId is in the input then ObjectId is in the result, if
InstancedTextureOffset is in the input then TextureTransformation is in
the result, and no other flag is added or removed. -/
theorem c1_construct_flags_normalized (l : List Flag) (lightCount : Nat) :
    (Phong.construct (mkFlags l) lightCount).flags = normalizeFlags (mkFlags l) ∧
    normalizeFlags (mkFlags l) = mkFlags l ∧
    (flagsContain (mkFlags l) instancedObjectIdFlag →
      flagsContain (Phong.construct (mkFlags l) lightCount).flags objectIdFlag) ∧
    (flagsContain (mkFlags l) instancedTextureOffsetFlag →
      flagsContain (Phong.construct (mkFlags l) lightCount).flags textureTransformationFlag) := by
  have hid := normalizeFlags_eq_self (mkFlags l)
  refine ⟨hid.symm, hid, ?_, ?_⟩
  · exact fun h => flagsContain_mono (by decide) h
  · exact fun h => flagsContain_mono (by decide) h

theorem c1_construct_flags_normalized_witness :
    flagsContain (mkFlags [Flag.instancedObjectId, Flag.instancedTextureOffset])
      instancedObjectIdFlag = true ∧
    flagsContain (Phong.construct
      (mkFlags [Flag.instancedObjectId, Flag.instancedTextureOffset]) 1).flags
      objectIdFlag = true ∧
    flagsContain (Phong.construct
      (mkFlags [Flag.instancedObjectId, Flag.instancedTextureOffset]) 1).flags
      textureTransformationFlag = true := by
  refine ⟨by decide, ?_, ?_⟩
  · exact (c1_construct_flags_normalized
      [Flag.instancedObjectId, Flag.instancedTextureOffset] 1).2.2.1 (by decide)
  · exact (c1_construct_flags_normalized
      [Flag.instancedObjectId, Flag.instancedTextureOffset] 1).2.2.2 (by decide)

/-- C6: the fixed scalar/matrix uniforms occupy slots 0 through 9, the
light position array occupies lightCount consecutive slots starting at
slot 10 and the light color array lightCount consecutive slots starting
at slot 10 + lightCount, and for every light count the fixed slots and
the two arrays are pairwise non-overlapping. -/
theorem c6_uniform_slot_layout (lightCount i j : Nat)
    (hi : i < lightCount) (hj : j < lightCount) :
    fixedUniformSlots = [0, 1, 2, 3, 4, 5, 6, 7, 8, 9] ∧
    lightPositionSlots lightCount = (List.range lightCount).map (fun k => 10 + k) ∧
    lightColorSlots lightCount = (List.range lightCount).map (fun k => 10 + lightCount + k) ∧
    lightPositionsUniform + i ∉ fixedUniformSlots ∧
    lightColorsUniform lightCount + j ∉ fixedUniformSlots ∧
    lightPositionsUniform + i ≠ lightColorsUniform lightCount + j := by
  refine ⟨rfl, rfl, rfl, ?_, ?_, ?_⟩
  · simp only [fixedUniformSlots, lightPositionsUniform, transformationMatrixUniform,
      projectionMatrixUniform, normalMatrixUniform, textureMatrixUniform,
      ambientColorUniform, diffuseColorUniform, specularColorUniform,
      shininessUniform, alphaMaskUniform, objectIdUniform, List.mem_cons,
      List.not_mem_nil, or_false]
    omega
  · simp only [fixedUniformSlots, lightColorsUniform, transformationMatrixUniform,
      projectionMatrixUniform, normalMatrixUniform, textureMatrixUniform,
      ambientColorUniform, diffuseColorUniform, specularColorUniform,
      shininessUniform, alphaMaskUniform, objectIdUniform, List.mem_cons,
      List.not_mem_nil, or_false]
    omega
  · simp only [lightPositionsUniform, lightColorsUniform]
    omega

theorem c6_uniform_slot_layout_witness :
    (1 : Nat) < 2 ∧
    lightPositionsUniform + 1 ∉ fixedUniformSlots ∧
    lightColorsUniform 2 + 1 ∉ fixedUniformSlots ∧
    lightPositionsUniform + 1 ≠ lightColorsUniform 2 + 1 := by
  have h := c6_uniform_slot_layout 2 1 1 (by decide) (by decide)
  exact ⟨by decide, h.2.2.2.1, h.2.2.2.2.1, h.2.2.2.2.2⟩

/-- C4: on every shader constructed with zero lights, each
lighting-dependent setter (setDiffuseColor, setSpecularColor,
setNormalMatrix, setShininess) is a no-op: the state is returned
unchanged and no diagnostic is produced. -/
theorem c4_zero_lights_noop (s : Phong) (h : s.lightCount = 0)
    (diffuse specular : Color4) (matrix : Matrix3) (shininess : Rat) :
    s.setDiffuseColor diffuse = (s, []) ∧
    s.setSpecularColor specular = (s, []) ∧
    s.setNormalMatrix matrix = (s, []) ∧
    s.setShininess shininess = (s, []) := by
  simp [Phong.setDiffuseColor, Phong.setSpecularColor, Phong.setNormalMatrix,
    Phong.setShininess, h]

theorem c4_zero_lights_noop_witness :
    (Phong.construct 0 0).lightCount = 0 ∧
    (Phong.construct 0 0).setDiffuseColor ⟨1, 0, 0, 1⟩ = (Phong.construct 0 0, []) ∧
    (Phong.construct 0 0).setSpecularColor ⟨0, 1, 0, 1⟩ = (Phong.construct 0 0, []) ∧
    (Phong.construct 0 0).setNormalMatrix Matrix3.identity = (Phong.construct 0 0, []) ∧
    (Phong.construct 0 0).setShininess 12 = (Phong.construct 0 0, []) := by
  have h := c4_zero_lights_noop (Phong.construct 0 0) rfl ⟨1, 0, 0, 1⟩ ⟨0, 1, 0, 1⟩
    Matrix3.identity 12
  exact ⟨rfl, h.1, h.2.1, h.2.2.1, h.2.2.2⟩

/-- C3: calling a texture-binding setter or setAlphaMask on a shader
whose corresponding flag was not enabled at construction produces
exactly one diagnostic line of the literal form
"<method>(): the shader was not created with <capability> enabled\n"
and leaves the prior state unchanged; concretely, constructing with no
flags and calling setAlphaMask with 3/4 emits the setAlphaMask line and
the alpha mask value stays at its default 1/2, while constructing with
AlphaMask and calling setAlphaMask with 1/4 emits no diagnostic and the
value becomes 1/4. -/
theorem c3_not_enabled_diagnostics (s : Phong) (mask : Rat) (texture : Nat) :
    (flagsContain s.flags alphaMaskFlag = false →
      s.setAlphaMask mask =
        (s, ["Shaders::Phong::setAlphaMask(): the shader was not created with alpha mask enabled\n"])) ∧
    (flagsContain s.flags ambientTextureFlag = false →
      s.bindAmbientTexture texture =
        (s, ["Shaders::Phong::bindAmbientTexture(): the shader was not created with ambient texture enabled\n"])) ∧
    (flagsContain s.flags diffuseTextureFlag = false →
      s.bindDiffuseTexture texture =
        (s, ["Shaders::Phong::bindDiffuseTexture(): the shader was not created with diffuse texture enabled\n"])) ∧
    (flagsContain s.flags specularTextureFlag = false →
      s.bindSpecularTexture texture =
        (s, ["Shaders::Phong::bindSpecularTexture(): the shader was not created with specular texture enabled\n"])) ∧
    (flagsContain s.flags normalTextureFlag = false →
      s.bindNormalTexture texture =
        (s, ["Shaders::Phong::bindNormalTexture(): the shader was not created with normal texture enabled\n"])) ∧
    (Phong.construct 0 1).alphaMask = 1/2 ∧
    (Phong.construct 0 1).setAlphaMask (3/4) =
      (Phong.construct 0 1,
       ["Shaders::Phong::setAlphaMask(): the shader was not created with alpha mask enabled\n"]) ∧
    ((Phong.construct alphaMaskFlag 1).setAlphaMask (1/4)).2 = [] ∧
    ((Phong.construct alphaMaskFlag 1).setAlphaMask (1/4)).1.alphaMask = 1/4 := by
  refine ⟨?_, ?_, ?_, ?_, ?_, ?_, ?_, ?_, ?_⟩
  · intro h; simp [Phong.setAlphaMask, h]
  · intro h; simp [Phong.bindAmbientTexture, h]
  · intro h; simp [Phong.bindDiffuseTexture, h]
  · intro h; simp [Phong.bindSpecularTexture, h]
  · intro h; simp [Phong.bindNormalTexture, h]
  · rfl
  · simp [Phong.setAlphaMask, Phong.construct, flagsContain, alphaMaskFlag]
  · simp [Phong.setAlphaMask, Phong.construct, flagsContain, alphaMaskFlag]
  · simp [Phong.setAlphaMask, Phong.construct, flagsContain, alphaMaskFlag]

theorem c3_not_enabled_diagnostics_witness :
    flagsContain (Phong.construct 0 1).flags alphaMaskFlag = false ∧
    (Phong.construct 0 1).setAlphaMask (3/4) =
      (Phong.construct 0 1,
       ["Shaders::Phong::setAlphaMask(): the shader was not created with alpha mask enabled\n"]) ∧
    flagsContain (Phong.construct 0 1).flags ambientTextureFlag = false ∧
    (Phong.construct 0 1).bindAmbientTexture 7 =
      (Phong.construct 0 1,
       ["Shaders::Phong::bindAmbientTexture(): the shader was not created with ambient texture enabled\n"]) := by
  have h := c3_not_enabled_diagnostics (Phong.construct 0 1) (3/4) 7
  exact ⟨by decide, h.1 (by decide), by decide, h.2.1 (by decide)⟩

/-- C2 counterexample: on a shader constructed with no flags at all, a
single bindTextures call with all four arguments non-null produces
exactly one diagnostic line (the combined "not created with any
textures enabled" message pinned by the bindTexturesNotEnabled test
transcript), not four lines as the claim states. -/
theorem c2_counterexample :
    ((Phong.construct 0 1).bindTextures (some 5) (some 5) (some 5) (some 5)).2 =
      [bindTexturesNoneMsg] ∧
    ((Phong.construct 0 1).bindTextures (some 5) (some 5) (some 5) (some 5)).2.length = 1 ∧
    ¬((Phong.construct 0 1).bindTextures (some 5) (some 5) (some 5) (some 5)).2.length = 4 := by
  refine ⟨rfl, rfl, by decide⟩

/-- C2 amended: in a bindTextures call, when none of the four texture
flags is set the call emits exactly the single combined "not created
with any textures enabled" line and changes nothing (the four-line test
transcript comes from three individual bind calls followed by this
one); when at least one texture flag is set, the four argument slots
are checked independently without short-circuiting, in fixed order
ambient, diffuse, specular, normal: every null argument contributes no
diagnostic and leaves its binding untouched, every non-null argument
with its flag enabled is applied, and every non-null argument with its
flag disabled leaves its binding untouched and contributes its own
diagnostic line. -/
theorem c2_bindTextures_amended (s : Phong) (ambient diffuse specular normal : Option Nat) :
    (s.flags &&& textureFlagsMask = 0 →
      s.bindTextures ambient diffuse specular normal = (s, [bindTexturesNoneMsg])) ∧
    (s.flags &&& textureFlagsMask ≠ 0 →
      (s.bindTextures ambient diffuse specular normal).2 =
        (if ambient.isSome && !(flagsContain s.flags ambientTextureFlag)
          then [bindTexturesCapabilityMsg "ambient texture"] else []) ++
        (if diffuse.isSome && !(flagsContain s.flags diffuseTextureFlag)
          then [bindTexturesCapabilityMsg "diffuse texture"] else []) ++
        (if specular.isSome && !(flagsContain s.flags specularTextureFlag)
          then [bindTexturesCapabilityMsg "specular texture"] else []) ++
        (if normal.isSome && !(flagsContain s.flags normalTextureFlag)
          then [bindTexturesCapabilityMsg "normal texture"] else []) ∧
      (s.bindTextures ambient diffuse specular normal).1.boundAmbientTexture =
        (if ambient.isSome && flagsContain s.flags ambientTextureFlag
          then ambient else s.boundAmbientTexture) ∧
      (s.bindTextures ambient diffuse specular normal).1.boundDiffuseTexture =
        (if diffuse.isSome && flagsContain s.flags diffuseTextureFlag
          then diffuse else s.boundDiffuseTexture) ∧
      (s.bindTextures ambient diffuse specular normal).1.boundSpecularTexture =
        (if specular.isSome && flagsContain s.flags specularTextureFlag
          then specular else s.boundSpecularTexture) ∧
      (s.bindTextures ambient diffuse specular normal).1.boundNormalTexture =
        (if normal.isSome && flagsContain s.flags normalTextureFlag
          then normal else s.boundNormalTexture)) := by
  constructor
  · intro h
    simp [Phong.bindTextures, h]
  · intro h
    have h2 : (s.flags &&& textureFlagsMask == 0) = false := by
      simp [beq_iff_eq, h]
    refine ⟨?_, ?_, ?_, ?_, ?_⟩ <;>
      simp only [Phong.bindTextures, h2, Bool.false_eq_true, if_false] <;>
      cases ambient <;> cases diffuse <;> cases specular <;> cases normal <;>
      cases hA : flagsContain s.flags ambientTextureFlag <;>
      cases hD : flagsContain s.flags diffuseTextureFlag <;>
      cases hS : flagsContain s.flags specularTextureFlag <;>
      cases hN : flagsContain s.flags normalTextureFlag <;>
      simp [bindTexturesSlot]

theorem c2_bindTextures_amended_witness :
    (Phong.construct 0 1).flags &&& textureFlagsMask = 0 ∧
    (Phong.construct 0 1).bindTextures (some 5) none (some 5) none =
      (Phong.construct 0 1, [bindTexturesNoneMsg]) ∧
    (Phong.construct ambientTextureFlag 1).flags &&& textureFlagsMask ≠ 0 ∧
    ((Phong.construct ambientTextureFlag 1).bindTextures (some 5) (some 6) none none).2 =
      [bindTexturesCapabilityMsg "diffuse texture"] ∧
    ((Phong.construct ambientTextureFlag 1).bindTextures (some 5) (some 6) none none).1.boundAmbientTexture =
      some 5 := by
  have h1 := (c2_bindTextures_amended (Phong.construct 0 1)
    (some 5) none (some 5) none).1 (by decide)
  have h2 := (c2_bindTextures_amended (Phong.construct ambientTextureFlag 1)
    (some 5) (some 6) none none).2 (by decide)
  refine ⟨by decide, h1, by decide, ?_, ?_⟩
  · rw [h2.1]; decide
  · rw [h2.2.1]; decide

/-- The concrete uncompressed buffer image the BufferImage constructMove
test builds first (driver-assigned buffer name modelled as 1). -/
def bufferImageA : BufferImage2D :=
  BufferImage2D.construct 1 PixelFormat.red PixelType.unsignedByte 4 1 [97, 98, 99, 100]

/-- The second concrete buffer image of the constructMove test, the
move-assignment target (driver-assigned buffer name modelled as 2). -/
def bufferImageC : BufferImage2D :=
  BufferImage2D.construct 2 PixelFormat.rgba PixelType.unsignedShort 1 2
    [1, 2, 3, 4, 5, 6, 7, 8]

/-- C5 counterexample: replaying the BufferImage constructMove test,
move-assigning image b (itself move-constructed from bufferImageA) into
target bufferImageC leaves the source holding the target's previous
state: its buffer handle reads 2 (the target's old nonzero name, as the
test itself checks) and its size reads 1 by 2 — not a default/empty
state with the handle cleared, contradicting the claim. -/
theorem c5_counterexample :
    (bufferImageC.moveAssign bufferImageA.moveConstruct.1).2.bufferId = 2 ∧
    ¬(bufferImageC.moveAssign bufferImageA.moveConstruct.1).2.bufferId = 0 ∧
    (bufferImageC.moveAssign bufferImageA.moveConstruct.1).2.sizeX = 1 ∧
    (bufferImageC.moveAssign bufferImageA.moveConstruct.1).2.sizeY = 2 := by
  refine ⟨rfl, by decide, rfl, rfl⟩

/-- C5 amended: move-construction of a Phong shader or a buffer image
transfers the whole state including the GL handle to the target and
leaves the source with its handle cleared (and, for the buffer image,
its size and data emptied); move-assignment exchanges the states of
target and source, so the source ends up holding the target's previous
state and its handle is cleared exactly when the target was
empty/NoCreate; repeated move-construction into fresh targets keeps
transferring the same state. -/
theorem c5_move_semantics (p target : Phong) (a t : BufferImage2D) :
    p.moveConstruct = (p, p.releaseId) ∧
    p.moveConstruct.1.id = p.id ∧
    p.moveConstruct.2.id = 0 ∧
    target.moveAssign p = (p, target) ∧
    (target.id = 0 → (target.moveAssign p).2.id = 0) ∧
    p.moveConstruct.1.moveConstruct.1 = p ∧
    a.moveConstruct.1 = a ∧
    a.moveConstruct.2.bufferId = 0 ∧
    a.moveConstruct.2.sizeX = 0 ∧
    a.moveConstruct.2.sizeY = 0 ∧
    t.moveAssign a = (a, t) ∧
    (t.bufferId = 0 → (t.moveAssign a).2.bufferId = 0) ∧
    a.moveConstruct.1.moveConstruct.1 = a := by
  refine ⟨rfl, rfl, rfl, rfl, ?_, rfl, rfl, rfl, rfl, rfl, rfl, ?_, rfl⟩
  · intro h; exact h
  · intro h; exact h

theorem c5_move_semantics_witness :
    (Phong.constructDefault.releaseId.moveAssign Phong.constructDefault).2.id = 0 ∧
    (bufferImageA.moveConstruct.2.moveAssign bufferImageA).2.bufferId = 0 := by
  have h := c5_move_semantics Phong.constructDefault Phong.constructDefault.releaseId
    bufferImageA bufferImageA.moveConstruct.2
  exact ⟨h.2.2.2.2.1 rfl, h.2.2.2.2.2.2.2.2.2.2.2.1 rfl⟩

/-- C7: calling setLightPositions or setLightColors with a sequence whose
length differs from lightCount is rejected as a precondition violation
(a diagnostic is emitted) and does not partially apply: the shader
state, in particular both light arrays, is returned unchanged. -/
theorem c7_light_array_length (s : Phong) (lights : List Vector3) (colors : List Color4)
    (hl : lights.length ≠ s.lightCount) (hc : colors.length ≠ s.lightCount) :
    (s.setLightPositions lights).1 = s ∧
    (s.setLightPositions lights).2 ≠ [] ∧
    (s.setLightPositions lights).1.lightPositions = s.lightPositions ∧
    (s.setLightPositions lights).1.lightColors = s.lightColors ∧
    (s.setLightColors colors).1 = s ∧
    (s.setLightColors colors).2 ≠ [] ∧
    (s.setLightColors colors).1.lightPositions = s.lightPositions ∧
    (s.setLightColors colors).1.lightColors = s.lightColors := by
  have hl2 : (lights.length == s.lightCount) = false := by simp [hl]
  have hc2 : (colors.length == s.lightCount) = false := by simp [hc]
  simp [Phong.setLightPositions, Phong.setLightColors, hl2, hc2]

theorem c7_light_array_length_witness :
    ((2 : Nat) ≠ (Phong.construct 0 1).lightCount) ∧
    ((Phong.construct 0 1).setLightPositions [⟨1, 2, 3⟩, ⟨4, 5, 6⟩]).1 = Phong.construct 0 1 ∧
    ((Phong.construct 0 1).setLightColors []).1 = Phong.construct 0 1 := by
  have h := c7_light_array_length (Phong.construct 0 1) [⟨1, 2, 3⟩, ⟨4, 5, 6⟩] []
    (by decide) (by decide)
  exact ⟨by decide, h.1, h.2.2.2.2.1⟩

/-- C8: the per-index setters setLightPosition and setLightColor require
the index to be below lightCount: out of range the call is a
precondition violation (a diagnostic is emitted) that leaves both light
arrays unchanged; in range only the entry at the given index is
updated, every other entry keeping its value. -/
theorem c8_indexed_light_setters (s : Phong) (id : Nat) (position : Vector3) (color : Color4)
    (hplen : s.lightPositions.length = s.lightCount)
    (hclen : s.lightColors.length = s.lightCount) :
    (s.lightCount ≤ id →
      (s.setLightPosition id position).1 = s ∧
      (s.setLightPosition id position).2 ≠ [] ∧
      (s.setLightColor id color).1 = s ∧
      (s.setLightColor id color).2 ≠ []) ∧
    (id < s.lightCount →
      (s.setLightPosition id position).2 = [] ∧
      (s.setLightPosition id position).1.lightPositions[id]? = some position ∧
      (∀ j, j ≠ id → (s.setLightPosition id position).1.lightPositions[j]? =
        s.lightPositions[j]?) ∧
      (s.setLightPosition id position).1.lightColors = s.lightColors ∧
      (s.setLightColor id color).2 = [] ∧
      (s.setLightColor id color).1.lightColors[id]? = some color ∧
      (∀ j, j ≠ id → (s.setLightColor id color).1.lightColors[j]? =
        s.lightColors[j]?) ∧
      (s.setLightColor id color).1.lightPositions = s.lightPositions) := by
  constructor
  · intro h
    have h2 : ¬id < s.lightCount := Nat.not_lt.mpr h
    simp [Phong.setLightPosition, Phong.setLightColor, h2]
  · intro h
    have hp : id < s.lightPositions.length := by rw [hplen]; exact h
    have hcl : id < s.lightColors.length := by rw [hclen]; exact h
    refine ⟨?_, ?_, ?_, ?_, ?_, ?_, ?_, ?_⟩ <;>
      simp [Phong.setLightPosition, Phong.setLightColor, h, hp, hcl,
        List.getElem?_set_self, List.getElem?_set_ne]
    · intro j hj
      exact List.getElem?_set_ne (fun e => hj e.symm)
    · intro j hj
      exact List.getElem?_set_ne (fun e => hj e.symm)

theorem c8_indexed_light_setters_witness :
    (Phong.construct 0 2).lightPositions.length = (Phong.construct 0 2).lightCount ∧
    ((Phong.construct 0 2).setLightPosition 5 ⟨1, 2, 3⟩).1 = Phong.construct 0 2 ∧
    ((Phong.construct 0 2).setLightPosition 1 ⟨1, 2, 3⟩).1.lightPositions[1]? =
      some ⟨1, 2, 3⟩ ∧
    ((Phong.construct 0 2).setLightPosition 1 ⟨1, 2, 3⟩).1.lightPositions[0]? =
      (Phong.construct 0 2).lightPositions[0]? := by
  have h := c8_indexed_light_setters (Phong.construct 0 2) 5 ⟨1, 2, 3⟩ ⟨1, 1, 1, 1⟩
    (by decide) (by decide)
  have h2 := c8_indexed_light_setters (Phong.construct 0 2) 1 ⟨1, 2, 3⟩ ⟨1, 1, 1, 1⟩
    (by decide) (by decide)
  refine ⟨by decide, (h.1 (by decide)).1, (h2.2 (by decide)).2.1, ?_⟩
  exact (h2.2 (by decide)).2.2.1 0 (by decide)

/-- C9: the single-argument convenience setters are exactly the bulk
setters applied to a one-element sequence (their inline bodies in
Phong.h forward literally), and consequently on every shader whose
light count is not 1 they hit the array-length precondition and change
nothing while emitting a diagnostic. -/
theorem c9_single_light_convenience (s : Phong) (position : Vector3) (color : Color4) :
    s.setLightPositionSingle position = s.setLightPositions [position] ∧
    s.setLightColorSingle color = s.setLightColors [color] ∧
    (s.lightCount ≠ 1 →
      (s.setLightPositionSingle position).1 = s ∧
      (s.setLightPositionSingle position).2 ≠ [] ∧
      (s.setLightColorSingle color).1 = s ∧
      (s.setLightColorSingle color).2 ≠ []) := by
  refine ⟨rfl, rfl, ?_⟩
  intro h
  have hne : (1 : Nat) ≠ s.lightCount := fun e => h e.symm
  simp [Phong.setLightPositionSingle, Phong.setLightColorSingle,
    Phong.setLightPositions, Phong.setLightColors, hne]

theorem c9_single_light_convenience_witness :
    (Phong.construct 0 2).lightCount ≠ 1 ∧
    ((Phong.construct 0 2).setLightPositionSingle ⟨1, 2, 3⟩).1 = Phong.construct 0 2 ∧
    ((Phong.construct 0 2).setLightColorSingle ⟨1, 1, 1, 1⟩).1 = Phong.construct 0 2 := by
  have h := c9_single_light_convenience (Phong.construct 0 2) ⟨1, 2, 3⟩ ⟨1, 1, 1, 1⟩
  exact ⟨by decide, (h.2.2 (by decide)).1, (h.2.2 (by decide)).2.2.1⟩

/-- C10: a Phong shader constructed with the declared default arguments
(flags = empty set, lightCount = 1) reads back the empty flag set and
light count 1; it rejects every texture bind and setAlphaMask (each
emits a diagnostic and leaves the state unchanged) and accepts the
single-light convenience setters (no diagnostic, the one light position
or color is stored). -/
theorem c10_default_construction (texture : Nat) (mask : Rat)
    (position : Vector3) (color : Color4) :
    Phong.constructDefault = Phong.construct 0 1 ∧
    Phong.constructDefault.flags = 0 ∧
    Phong.constructDefault.lightCount = 1 ∧
    (Phong.constructDefault.bindAmbientTexture texture).1 = Phong.constructDefault ∧
    (Phong.constructDefault.bindAmbientTexture texture).2 ≠ [] ∧
    (Phong.constructDefault.bindDiffuseTexture texture).1 = Phong.constructDefault ∧
    (Phong.constructDefault.bindDiffuseTexture texture).2 ≠ [] ∧
    (Phong.constructDefault.bindSpecularTexture texture).1 = Phong.constructDefault ∧
    (Phong.constructDefault.bindSpecularTexture texture).2 ≠ [] ∧
    (Phong.constructDefault.bindNormalTexture texture).1 = Phong.constructDefault ∧
    (Phong.constructDefault.bindNormalTexture texture).2 ≠ [] ∧
    (Phong.constructDefault.setAlphaMask mask).1 = Phong.constructDefault ∧
    (Phong.constructDefault.setAlphaMask mask).2 ≠ [] ∧
    (Phong.constructDefault.setLightPositionSingle position).2 = [] ∧
    (Phong.constructDefault.setLightPositionSingle position).1.lightPositions = [position] ∧
    (Phong.constructDefault.setLightColorSingle color).2 = [] ∧
    (Phong.constructDefault.setLightColorSingle color).1.lightColors = [color] := by
  refine ⟨rfl, rfl, rfl, ?_, ?_, ?_, ?_, ?_, ?_, ?_, ?_, ?_, ?_, ?_, ?_, ?_, ?_⟩ <;>
    simp [Phong.constructDefault, Phong.construct, Phong.bindAmbientTexture,
      Phong.bindDiffuseTexture, Phong.bindSpecularTexture, Phong.bindNormalTexture,
      Phong.setAlphaMask, Phong.setLightPositionSingle, Phong.setLightColorSingle,
      Phong.setLightPositions, Phong.setLightColors, flagsContain,
      ambientTextureFlag, diffuseTextureFlag, specularTextureFlag,
      normalTextureFlag, alphaMaskFlag]

end Magnum
